import Mathlib

/-!
# LoRaWAN node: join controller and transmit loop

Shallow embedding of `app_lorawan_init` (src/app_lorawan.c) and of `main`
(src/main.c).  The external collaborators (LoRaWAN stack, NVS, GPIO, kernel
sleep) are modelled by the values they return, supplied by an environment,
and by the events the program emits, collected in a trace.
-/

namespace LorawanNode

/-! ## Machine integers -/

/-- Conversion of a C `int` to `int8_t` (two's complement wrap-around). -/
def toInt8 (x : Int) : Int := (x + 128) % 256 - 128

/-- Conversion to `uint16_t`. -/
def toUInt16 (n : Nat) : Nat := n % 65536

/-! ## Events -/

inductive Led where
  | led_tx
  | led_rx
  deriving DecidableEq, Repr

/-- The diagnostic messages printed with `printk`, with their arguments. -/
inductive Msg where
  | starting_init
  | device_not_ready
  | start_failed (ret : Int)
  | starting_stack
  | region_failed (ret : Int)
  | joining_otaa
  | join_network_failed (ret : Int)
  | attempting (dev_nonce : Nat) (itr : Int)
  | timed_out
  | join_failed (ret : Int)
  | joined
  | nvs_failed (err : Int)
  | test_ttn
  | sending
  | send_retry (ret : Int)
  | send_failed (ret : Int)
  | sent
  deriving DecidableEq, Repr

/-- Calls to the external collaborators, in program order. -/
inductive Event where
  | printk (m : Msg)
  | flash_init
  | device_is_ready
  | lorawan_start
  | lorawan_set_region
  | gpio_pin_configure (led : Led)
  | gpio_pin_set (led : Led) (level : Nat)
  | lorawan_enable_adr
  | register_callbacks
  | lorawan_join (dev_nonce : Nat)
  | nvs_write (value : Nat)
  | k_sleep (ms : Nat)
  | k_sleep_delay
  | lorawan_send
  deriving DecidableEq, Repr

/-- Result of a run: the value returned (`none` when the loop has not finished
within the given number of iterations) and the events emitted so far. -/
structure Outcome where
  ret : Option Int
  trace : List Event
  deriving DecidableEq, Repr

/-- Put the events of the code executed first in front of an outcome. -/
def Outcome.after (evs : List Event) (o : Outcome) : Outcome :=
  ⟨o.ret, evs ++ o.trace⟩

/-! ## Environment of `app_lorawan_init` -/

/-- What the collaborators answer during one run of `app_lorawan_init`. -/
structure Env where
  /-- content of the NVS entry `NVS_DEVNONCE_ID`, `none` when never written -/
  stored : Option Nat
  /-- answer of `device_is_ready` -/
  deviceReady : Bool
  /-- value returned by `lorawan_start` -/
  startResult : Int
  /-- value returned by `lorawan_set_region` -/
  regionResult : Int
  /-- value returned by the k-th call (from 0) of `lorawan_join` -/
  joinResults : Nat → Int
  /-- value returned by the k-th call (from 0) of `nvs_write` -/
  nvsResults : Nat → Int

/-- Modelled from the spec: `app_flash_init_param` of app_flash.c, which is not
among the sources.  It reads the entry into `dev_nonce`: the last written value,
or the default zero when the entry was never written. -/
def app_flash_init_param (stored : Option Nat) : Nat :=
  match stored with
  | some v => toUInt16 v
  | none => 0

/-! ## `app_lorawan_init` -/

/-- Local variables live across the iterations of the do-while loop. -/
structure JoinState where
  /-- the `int8_t itr` attempt counter -/
  itr : Int
  /-- the `uint16_t dev_nonce` -/
  dev_nonce : Nat
  /-- the field `join_cfg.otaa.dev_nonce` -/
  cfg_nonce : Nat
  /-- number of loop iterations already executed -/
  k : Nat
  deriving DecidableEq, Repr

/-- The do-while loop of `app_lorawan_init` (lines 110-142) followed by the
epilogue (lines 144-147).  Iteration `k` (from 0) makes call `k + 1` of
`lorawan_join` (call 0 is made before the loop) and call `k` of `nvs_write`. -/
def joinLoop (MAX ETIMEDOUT : Int) (env : Env) : Nat → JoinState → Outcome
  | 0, _ => ⟨none, []⟩
  | fuel + 1, st =>
    let itr := toInt8 (st.itr + 1)
    let ret := toInt8 (env.joinResults (st.k + 1))
    let dev_nonce := toUInt16 (st.dev_nonce + 1)
    let err := env.nvsResults st.k
    let body : List Event :=
      [Event.printk (Msg.attempting st.cfg_nonce st.itr),
       Event.gpio_pin_set Led.led_rx 1,
       Event.lorawan_join st.cfg_nonce,
       Event.printk (if ret < 0 then
                       (if ret = -ETIMEDOUT then Msg.timed_out else Msg.join_failed ret)
                     else Msg.joined),
       Event.nvs_write dev_nonce]
      ++ (if err < 0 then [Event.printk (Msg.nvs_failed err)] else [])
      ++ (if ret < 0 then [Event.k_sleep 10000] else [])
    if ret ≠ 0 ∧ itr < MAX then
      (joinLoop MAX ETIMEDOUT env fuel ⟨itr, dev_nonce, dev_nonce, st.k + 1⟩).after body
    else
      ⟨some 1, body ++ [Event.gpio_pin_set Led.led_tx 0, Event.gpio_pin_set Led.led_rx 0]⟩

/-- The function `app_lorawan_init` of src/app_lorawan.c.  `MAX` is the constant
`MAX_JOIN_ATTEMPTS` and `ETIMEDOUT` the errno constant, both defined in headers
that are not among the sources; `fuel` bounds the number of loop iterations. -/
def app_lorawan_init (MAX ETIMEDOUT : Int) (env : Env) (fuel : Nat) : Outcome :=
  let dev_nonce := app_flash_init_param env.stored
  let pre1 : List Event :=
    [Event.flash_init, Event.printk Msg.starting_init, Event.device_is_ready]
  if !env.deviceReady then
    ⟨some 0, pre1 ++ [Event.printk Msg.device_not_ready]⟩
  else
    let ret := toInt8 env.startResult
    if ret < 0 then
      ⟨some 0, pre1 ++ [Event.lorawan_start, Event.printk (Msg.start_failed ret)]⟩
    else
      let pre2 := pre1 ++ [Event.lorawan_start, Event.k_sleep 500,
        Event.printk Msg.starting_stack, Event.lorawan_set_region]
      let ret := toInt8 env.regionResult
      if ret < 0 then
        ⟨some 0, pre2 ++ [Event.printk (Msg.region_failed ret)]⟩
      else
        let pre3 := pre2 ++ [Event.gpio_pin_set Led.led_tx 1, Event.lorawan_enable_adr,
          Event.register_callbacks, Event.printk Msg.joining_otaa, Event.lorawan_join 0]
        let ret := toInt8 (env.joinResults 0)
        if ret < 0 then
          ⟨some 0, pre3 ++ [Event.printk (Msg.join_network_failed ret)]⟩
        else
          (joinLoop MAX ETIMEDOUT env fuel ⟨1, dev_nonce, 0, 0⟩).after pre3

/-! ## Observations on a trace -/

/-- The nonces carried by the join requests, in order. -/
def joinNonces (tr : List Event) : List Nat :=
  tr.filterMap fun e => match e with
    | Event.lorawan_join n => some n
    | _ => none

/-- The values passed to `nvs_write`, in order. -/
def nvsWrites (tr : List Event) : List Nat :=
  tr.filterMap fun e => match e with
    | Event.nvs_write v => some v
    | _ => none

/-- The durations of the `k_sleep` waits, in order. -/
def sleeps (tr : List Event) : List Nat :=
  tr.filterMap fun e => match e with
    | Event.k_sleep ms => some ms
    | _ => none

/-- Number of calls of `lorawan_join`. -/
def joinCount (tr : List Event) : Nat := (joinNonces tr).length

/-- An environment given by finite lists of answers; a call beyond the end of
a list is answered with `0`. -/
def mkEnv (stored : Option Nat) (joins : List Int) (nvs : List Int) : Env :=
  { stored := stored, deviceReady := true, startResult := 0, regionResult := 0,
    joinResults := fun k => joins.getD k 0, nvsResults := fun k => nvs.getD k 0 }

/-- An environment in which everything succeeds except what is listed. -/
def envWith (stored : Option Nat) (startResult regionResult : Int) : Env :=
  { stored := stored, deviceReady := true, startResult := startResult,
    regionResult := regionResult, joinResults := fun _ => 0, nvsResults := fun _ => 0 }

/-- An environment in which the join before the loop succeeds and every join
request of the loop times out. -/
def envRetriesTimeOut : Env :=
  { stored := none, deviceReady := true, startResult := 0, regionResult := 0,
    joinResults := fun k => if k = 0 then 0 else -116, nvsResults := fun _ => 0 }

/-- Keep every call except the `printk` diagnostics. -/
def hideLogs (tr : List Event) : List Event :=
  tr.filter fun e => match e with
    | Event.printk _ => false
    | _ => true

/-! ## `main` -/

/-- What the collaborators answer during one run of `main`. -/
structure MainEnv where
  /-- answer of `device_is_ready` -/
  deviceReady : Bool
  /-- value returned by `lorawan_start` -/
  startResult : Int
  /-- value returned by `lorawan_join` -/
  joinResult : Int
  /-- value returned by the k-th call (from 0) of `lorawan_send` -/
  sendResults : Nat → Int

/-- The transmit loop of `main` (lines 98-129) followed by the final `return 0`.
`i` is the `int8_t` loop counter and `k` the number of `lorawan_send` calls made
so far; `ret` is an `int` here. -/
def sendLoop (EAGAIN : Int) (sendResults : Nat → Int) : Nat → Int → Nat → Outcome
  | 0, _, _ => ⟨none, []⟩
  | fuel + 1, i, k =>
    if i < 5 then
      let ret := sendResults k
      let head : List Event :=
        [Event.printk Msg.sending, Event.gpio_pin_set Led.led_tx 1, Event.lorawan_send]
      if ret = -EAGAIN then
        (sendLoop EAGAIN sendResults fuel (toInt8 (i + 1)) (k + 1)).after
          (head ++ [Event.printk (Msg.send_retry ret), Event.gpio_pin_set Led.led_tx 0,
            Event.k_sleep 10000])
      else if ret < 0 then
        ⟨some 0, head ++ [Event.printk (Msg.send_failed ret), Event.gpio_pin_set Led.led_tx 0]⟩
      else
        (sendLoop EAGAIN sendResults fuel (toInt8 (i + 1)) (k + 1)).after
          (head ++ [Event.printk Msg.sent, Event.gpio_pin_set Led.led_tx 0,
            Event.k_sleep_delay])
    else
      ⟨some 0, []⟩

/-- The function `main` of src/main.c.  `EAGAIN` is the errno constant.  The
loop runs with more fuel than its five iterations need. -/
def main (EAGAIN : Int) (env : MainEnv) : Outcome :=
  let pre1 : List Event :=
    [Event.gpio_pin_configure Led.led_tx, Event.gpio_pin_configure Led.led_rx,
     Event.gpio_pin_set Led.led_tx 0, Event.gpio_pin_set Led.led_rx 0,
     Event.device_is_ready]
  if !env.deviceReady then
    ⟨some 0, pre1 ++ [Event.printk Msg.device_not_ready]⟩
  else
    let ret := env.startResult
    if ret < 0 then
      ⟨some 0, pre1 ++ [Event.lorawan_start, Event.printk (Msg.start_failed ret)]⟩
    else
      let pre2 := pre1 ++ [Event.lorawan_start, Event.register_callbacks,
        Event.printk Msg.joining_otaa, Event.lorawan_join 0]
      let ret := env.joinResult
      if ret < 0 then
        ⟨some 0, pre2 ++ [Event.printk (Msg.join_network_failed ret)]⟩
      else
        (sendLoop EAGAIN env.sendResults 6 0 0).after (pre2 ++ [Event.printk Msg.test_ttn])

/-- Number of calls of `lorawan_send`. -/
def sendCount (tr : List Event) : Nat :=
  (tr.filter fun e => match e with
    | Event.lorawan_send => true
    | _ => false).length

/-- A send result that aborts the transmit loop: negative and not `-EAGAIN`. -/
def fatalSend (EAGAIN r : Int) : Prop := r < 0 ∧ r ≠ -EAGAIN

instance (EAGAIN r : Int) : Decidable (fatalSend EAGAIN r) := by
  unfold fatalSend; infer_instance

/-- An environment of `main` in which the join succeeds, with a finite list of
send results (a call beyond the end of the list is answered with `0`). -/
def mkMainEnv (sends : List Int) : MainEnv :=
  { deviceReady := true, startResult := 0, joinResult := 0,
    sendResults := fun k => sends.getD k 0 }

/-- The events of one iteration of the do-while loop, as `joinLoop` emits them. -/
def iterEvents (ETIMEDOUT : Int) (env : Env) (st : JoinState) : List Event :=
  [Event.printk (Msg.attempting st.cfg_nonce st.itr),
   Event.gpio_pin_set Led.led_rx 1,
   Event.lorawan_join st.cfg_nonce,
   Event.printk (if toInt8 (env.joinResults (st.k + 1)) < 0 then
       (if toInt8 (env.joinResults (st.k + 1)) = -ETIMEDOUT then Msg.timed_out
        else Msg.join_failed (toInt8 (env.joinResults (st.k + 1))))
     else Msg.joined),
   Event.nvs_write (toUInt16 (st.dev_nonce + 1))]
  ++ (if env.nvsResults st.k < 0 then
        [Event.printk (Msg.nvs_failed (env.nvsResults st.k))] else [])
  ++ (if toInt8 (env.joinResults (st.k + 1)) < 0 then [Event.k_sleep 10000] else [])

/-- The local variables after one iteration of the do-while loop. -/
def iterNext (st : JoinState) : JoinState :=
  ⟨toInt8 (st.itr + 1), toUInt16 (st.dev_nonce + 1), toUInt16 (st.dev_nonce + 1), st.k + 1⟩

/-- The events before the do-while loop on the path that reaches it. -/
def prologue : List Event :=
  [Event.flash_init, Event.printk Msg.starting_init, Event.device_is_ready,
   Event.lorawan_start, Event.k_sleep 500, Event.printk Msg.starting_stack,
   Event.lorawan_set_region, Event.gpio_pin_set Led.led_tx 1, Event.lorawan_enable_adr,
   Event.register_callbacks, Event.printk Msg.joining_otaa, Event.lorawan_join 0]

/-- The events after the do-while loop. -/
def epilogue : List Event :=
  [Event.gpio_pin_set Led.led_tx 0, Event.gpio_pin_set Led.led_rx 0]

/-! ## Basic facts on traces -/

@[simp] theorem after_ret (evs : List Event) (o : Outcome) : (o.after evs).ret = o.ret := rfl

@[simp] theorem after_trace (evs : List Event) (o : Outcome) :
    (o.after evs).trace = evs ++ o.trace := rfl

@[simp] theorem joinNonces_append (a b : List Event) :
    joinNonces (a ++ b) = joinNonces a ++ joinNonces b := by
  simp [joinNonces, List.filterMap_append]

@[simp] theorem nvsWrites_append (a b : List Event) :
    nvsWrites (a ++ b) = nvsWrites a ++ nvsWrites b := by
  simp [nvsWrites, List.filterMap_append]

@[simp] theorem sleeps_append (a b : List Event) :
    sleeps (a ++ b) = sleeps a ++ sleeps b := by
  simp [sleeps, List.filterMap_append]

@[simp] theorem hideLogs_append (a b : List Event) :
    hideLogs (a ++ b) = hideLogs a ++ hideLogs b := by
  simp [hideLogs, List.filter_append]

theorem toInt8_of_range (x : Int) (h1 : -128 ≤ x) (h2 : x ≤ 127) : toInt8 x = x := by
  unfold toInt8; omega

theorem toInt8_bounds (x : Int) : -128 ≤ toInt8 x ∧ toInt8 x ≤ 127 := by
  unfold toInt8; omega

/-- One unfolding of the do-while loop. -/
theorem joinLoop_succ (MAX ETIMEDOUT : Int) (env : Env) (fuel : Nat) (st : JoinState) :
    joinLoop MAX ETIMEDOUT env (fuel + 1) st =
      if toInt8 (env.joinResults (st.k + 1)) ≠ 0 ∧ toInt8 (st.itr + 1) < MAX then
        (joinLoop MAX ETIMEDOUT env fuel (iterNext st)).after (iterEvents ETIMEDOUT env st)
      else
        ⟨some 1, iterEvents ETIMEDOUT env st ++ epilogue⟩ := rfl

@[simp] theorem joinLoop_zero (MAX ETIMEDOUT : Int) (env : Env) (st : JoinState) :
    joinLoop MAX ETIMEDOUT env 0 st = ⟨none, []⟩ := rfl

@[simp] theorem joinNonces_iterEvents (E : Int) (env : Env) (st : JoinState) :
    joinNonces (iterEvents E env st) = [st.cfg_nonce] := by
  unfold iterEvents joinNonces
  split <;> split <;> simp

@[simp] theorem nvsWrites_iterEvents (E : Int) (env : Env) (st : JoinState) :
    nvsWrites (iterEvents E env st) = [toUInt16 (st.dev_nonce + 1)] := by
  unfold iterEvents nvsWrites
  split <;> split <;> simp

@[simp] theorem joinNonces_epilogue : joinNonces epilogue = [] := rfl

@[simp] theorem nvsWrites_epilogue : nvsWrites epilogue = [] := rfl

@[simp] theorem joinNonces_prologue : joinNonces prologue = [0] := rfl

@[simp] theorem nvsWrites_prologue : nvsWrites prologue = [] := rfl

/-- The path of `app_lorawan_init` that reaches the do-while loop. -/
theorem app_lorawan_init_loop (MAX E : Int) (env : Env) (fuel : Nat)
    (hd : env.deviceReady = true) (hs : ¬ toInt8 env.startResult < 0)
    (hr : ¬ toInt8 env.regionResult < 0) (hj : ¬ toInt8 (env.joinResults 0) < 0) :
    app_lorawan_init MAX E env fuel =
      (joinLoop MAX E env fuel ⟨1, app_flash_init_param env.stored, 0, 0⟩).after prologue := by
  simp [app_lorawan_init, hd, hs, hr, hj, prologue]

/-- Join requests of the loop: one per iteration, within the attempt budget. -/
theorem joinLoop_joinCount_le (MAX ETIMEDOUT : Int) (env : Env) (hM : MAX ≤ 127) :
    ∀ (fuel : Nat) (st : JoinState), 1 ≤ st.itr → st.itr < MAX →
      (joinCount (joinLoop MAX ETIMEDOUT env fuel st).trace : Int) ≤ MAX - st.itr := by
  intro fuel
  induction fuel with
  | zero => intro st h1 h2; simp [joinCount, joinNonces]; omega
  | succ n ih =>
    intro st h1 h2
    have hi : toInt8 (st.itr + 1) = st.itr + 1 := toInt8_of_range _ (by omega) (by omega)
    rw [joinLoop_succ]
    split
    · rename_i hc
      have := ih (iterNext st) (by simp only [iterNext, hi]; omega) (by exact hc.2)
      simp only [iterNext, hi, joinCount] at this
      simp only [joinCount, after_trace, joinNonces_append, List.length_append,
        joinNonces_iterEvents, List.length_singleton, iterNext, hi]
      push_cast
      omega
    · simp only [joinCount, joinNonces_append, joinNonces_iterEvents, joinNonces_epilogue,
        List.length_append, List.length_singleton, List.length_nil]
      push_cast
      omega

/-- With a budget of at most 127 the loop finishes within `MAX - itr` iterations. -/
theorem joinLoop_returns (MAX ETIMEDOUT : Int) (env : Env) (hM : MAX ≤ 127) :
    ∀ (fuel : Nat) (st : JoinState), 1 ≤ st.itr → st.itr ≤ 126 → MAX - st.itr ≤ fuel →
      1 ≤ fuel → (joinLoop MAX ETIMEDOUT env fuel st).ret = some 1 := by
  intro fuel
  induction fuel with
  | zero => intro st h1 h2 h3 h4; omega
  | succ n ih =>
    intro st h1 h2 h3 _
    have hi : toInt8 (st.itr + 1) = st.itr + 1 := toInt8_of_range _ (by omega) (by omega)
    rw [joinLoop_succ]
    split
    · rename_i hc
      have h4 := hc.2
      rw [hi] at h4
      simp only [after_ret]
      apply ih
      · simp only [iterNext, hi]; omega
      · simp only [iterNext, hi]; omega
      · simp only [iterNext, hi]; omega
      · omega
    · rfl

/-- Every path of `app_lorawan_init` other than the one through the loop issues
at most one join request and returns. -/
theorem app_lorawan_init_cases (MAX E : Int) (env : Env) (fuel : Nat) :
    ((app_lorawan_init MAX E env fuel).ret = some 0 ∧
      joinCount (app_lorawan_init MAX E env fuel).trace ≤ 1 ∧
      nvsWrites (app_lorawan_init MAX E env fuel).trace = []) ∨
    app_lorawan_init MAX E env fuel =
      (joinLoop MAX E env fuel ⟨1, app_flash_init_param env.stored, 0, 0⟩).after prologue := by
  by_cases hd : env.deviceReady = true
  · by_cases hs : toInt8 env.startResult < 0
    · left; simp [app_lorawan_init, hd, hs, joinCount, joinNonces, nvsWrites]
    · by_cases hr : toInt8 env.regionResult < 0
      · left; simp [app_lorawan_init, hd, hs, hr, joinCount, joinNonces, nvsWrites]
      · by_cases hj : toInt8 (env.joinResults 0) < 0
        · left; simp [app_lorawan_init, hd, hs, hr, hj, joinCount, joinNonces, nvsWrites]
        · right; exact app_lorawan_init_loop MAX E env fuel hd hs hr hj
  · left; simp [app_lorawan_init, hd, joinCount, joinNonces, nvsWrites]

/-- The values written by the loop are the successive increments, modulo 2^16,
of the value of `dev_nonce` on entry. -/
theorem joinLoop_nvsWrites (MAX E : Int) (env : Env) :
    ∀ (fuel : Nat) (st : JoinState),
      nvsWrites (joinLoop MAX E env fuel st).trace =
        (List.range (nvsWrites (joinLoop MAX E env fuel st).trace).length).map
          (fun i => toUInt16 (st.dev_nonce + 1 + i)) := by
  intro fuel
  induction fuel with
  | zero => intro st; simp [nvsWrites]
  | succ n ih =>
    intro st
    rw [joinLoop_succ]
    split
    · have h := ih (iterNext st)
      simp only [after_trace, nvsWrites_append, nvsWrites_iterEvents, List.length_append,
        List.length_singleton]
      rw [Nat.add_comm 1, List.range_succ_eq_map, List.map_cons, List.map_map]
      simp only [List.singleton_append, Nat.add_zero]
      congr 1
      rw [h]
      simp only [List.length_map, List.length_range]
      apply List.map_congr_left
      intro i _
      simp only [iterNext, toUInt16, Function.comp]
      omega
    · simp [nvsWrites_append, List.range_succ]

/-- The calls of one iteration other than the diagnostics: they depend on the
join result only through its sign as an `int8_t`, and not on the result of
`nvs_write`. -/
theorem hideLogs_iterEvents (E : Int) (env : Env) (st : JoinState) :
    hideLogs (iterEvents E env st) =
      [Event.gpio_pin_set Led.led_rx 1, Event.lorawan_join st.cfg_nonce,
        Event.nvs_write (toUInt16 (st.dev_nonce + 1))]
      ++ (if toInt8 (env.joinResults (st.k + 1)) < 0 then [Event.k_sleep 10000] else []) := by
  unfold iterEvents hideLogs
  split <;> split <;> simp

/-- An observation that ignores the diagnostics can be computed after hiding them. -/
theorem filterMap_hideLogs {α : Type} (g : Event → Option α)
    (hg : ∀ m, g (Event.printk m) = none) (tr : List Event) :
    (hideLogs tr).filterMap g = tr.filterMap g := by
  induction tr with
  | nil => rfl
  | cons e t ih =>
    cases e <;> simp_all [hideLogs, List.filterMap_cons, List.filter_cons]

theorem joinNonces_hideLogs (tr : List Event) : joinNonces (hideLogs tr) = joinNonces tr :=
  filterMap_hideLogs _ (fun _ => rfl) tr

theorem nvsWrites_hideLogs (tr : List Event) : nvsWrites (hideLogs tr) = nvsWrites tr :=
  filterMap_hideLogs _ (fun _ => rfl) tr

theorem sleeps_hideLogs (tr : List Event) : sleeps (hideLogs tr) = sleeps tr :=
  filterMap_hideLogs _ (fun _ => rfl) tr

/-- The loop does not observe the results of `nvs_write`, except in its diagnostics. -/
theorem joinLoop_nvs_irrelevant (MAX E : Int) (env : Env) (w : Nat → Int) :
    ∀ (fuel : Nat) (st : JoinState),
      (joinLoop MAX E env fuel st).ret
        = (joinLoop MAX E { env with nvsResults := w } fuel st).ret ∧
      hideLogs (joinLoop MAX E env fuel st).trace
        = hideLogs (joinLoop MAX E { env with nvsResults := w } fuel st).trace := by
  intro fuel
  induction fuel with
  | zero => intro st; simp
  | succ n ih =>
    intro st
    rw [joinLoop_succ, joinLoop_succ]
    by_cases hc : toInt8 (env.joinResults (st.k + 1)) ≠ 0 ∧ toInt8 (st.itr + 1) < MAX
    · rw [if_pos hc, if_pos hc]
      obtain ⟨h1, h2⟩ := ih (iterNext st)
      simp only [after_ret, after_trace, hideLogs_append, hideLogs_iterEvents]
      exact ⟨h1, by rw [h2]⟩
    · rw [if_neg hc, if_neg hc]
      simp only [hideLogs_append, hideLogs_iterEvents, and_self]

/-- In the loop, each join request after the first carries the value passed to
the preceding `nvs_write`. -/
theorem joinLoop_joinNonces (MAX E : Int) (env : Env) :
    ∀ (fuel : Nat) (st : JoinState), 1 ≤ fuel →
      joinNonces (joinLoop MAX E env fuel st).trace =
        st.cfg_nonce :: (nvsWrites (joinLoop MAX E env fuel st).trace).dropLast ∧
      nvsWrites (joinLoop MAX E env fuel st).trace ≠ [] := by
  intro fuel
  induction fuel with
  | zero => intro st h; omega
  | succ n ih =>
    intro st _
    rw [joinLoop_succ]
    split
    · simp only [after_trace, joinNonces_append, nvsWrites_append, joinNonces_iterEvents,
        nvsWrites_iterEvents, List.singleton_append]
      rcases Nat.eq_zero_or_pos n with h0 | hpos
      · subst h0; simp [joinNonces, nvsWrites]
      · obtain ⟨h1, h2⟩ := ih (iterNext st) hpos
        refine ⟨?_, by simp⟩
        rw [List.dropLast_cons_of_ne_nil h2, h1]
        rfl
    · simp [joinNonces_append, nvsWrites_append]

/-- Two join results that are equal, or both negative once stored in the
`int8_t ret`, are told apart by the loop only in its diagnostics. -/
theorem joinLoop_negative_alike (MAX E : Int) (env : Env) (r : Nat → Int)
    (hrel : ∀ k, env.joinResults k = r k ∨
      (toInt8 (env.joinResults k) < 0 ∧ toInt8 (r k) < 0)) :
    ∀ (fuel : Nat) (st : JoinState),
      (joinLoop MAX E env fuel st).ret
        = (joinLoop MAX E { env with joinResults := r } fuel st).ret ∧
      hideLogs (joinLoop MAX E env fuel st).trace
        = hideLogs (joinLoop MAX E { env with joinResults := r } fuel st).trace := by
  intro fuel
  induction fuel with
  | zero => intro st; simp
  | succ n ih =>
    intro st
    have hneg : (toInt8 (env.joinResults (st.k + 1)) < 0 ↔ toInt8 (r (st.k + 1)) < 0) ∧
        (toInt8 (env.joinResults (st.k + 1)) ≠ 0 ↔ toInt8 (r (st.k + 1)) ≠ 0) := by
      rcases hrel (st.k + 1) with he | ⟨h1, h2⟩
      · rw [he]; exact ⟨Iff.rfl, Iff.rfl⟩
      · constructor <;> constructor <;> intro _ <;> omega
    rw [joinLoop_succ, joinLoop_succ]
    obtain ⟨h1, h2⟩ := ih (iterNext st)
    by_cases hc : toInt8 (env.joinResults (st.k + 1)) ≠ 0 ∧ toInt8 (st.itr + 1) < MAX
    · have hc2 : toInt8 (r (st.k + 1)) ≠ 0 ∧ toInt8 (st.itr + 1) < MAX :=
        ⟨hneg.2.mp hc.1, hc.2⟩
      rw [if_pos hc, if_pos hc2]
      simp only [after_ret, after_trace, hideLogs_append, hideLogs_iterEvents, hneg.1]
      exact ⟨h1, by rw [h2]⟩
    · have hc2 : ¬ (toInt8 (r (st.k + 1)) ≠ 0 ∧ toInt8 (st.itr + 1) < MAX) :=
        fun h => hc ⟨hneg.2.mpr h.1, h.2⟩
      rw [if_neg hc, if_neg hc2]
      simp only [hideLogs_append, hideLogs_iterEvents, hneg.1, and_self]

/-- Join results that are negative once stored in the `int8_t ret` are handled
alike by `app_lorawan_init`: exchanging one for another changes neither the
value returned nor any call other than the diagnostics. -/
theorem stored_negative_results_alike (MAX E : Int) (env : Env) (r : Nat → Int)
    (fuel : Nat)
    (hrel : ∀ k, env.joinResults k = r k ∨
      (toInt8 (env.joinResults k) < 0 ∧ toInt8 (r k) < 0)) :
    (app_lorawan_init MAX E env fuel).ret
      = (app_lorawan_init MAX E { env with joinResults := r } fuel).ret ∧
    hideLogs (app_lorawan_init MAX E env fuel).trace
      = hideLogs (app_lorawan_init MAX E { env with joinResults := r } fuel).trace := by
  have h0 : (toInt8 (env.joinResults 0) < 0 ↔ toInt8 (r 0) < 0) := by
    rcases hrel 0 with he | ⟨h1, h2⟩
    · rw [he]
    · exact ⟨fun _ => h2, fun _ => h1⟩
  by_cases hd : env.deviceReady = true
  · by_cases hs : toInt8 env.startResult < 0
    · simp [app_lorawan_init, hd, hs]
    · by_cases hr : toInt8 env.regionResult < 0
      · simp [app_lorawan_init, hd, hs, hr]
      · by_cases hj : toInt8 (env.joinResults 0) < 0
        · have hj2 : toInt8 (r 0) < 0 := h0.mp hj
          simp [app_lorawan_init, hd, hs, hr, hj, hj2, hideLogs]
        · have hj2 : ¬ toInt8 (r 0) < 0 := fun h => hj (h0.mpr h)
          rw [app_lorawan_init_loop MAX E env fuel hd hs hr hj,
            app_lorawan_init_loop MAX E { env with joinResults := r } fuel hd hs hr hj2]
          obtain ⟨h1, h2⟩ := joinLoop_negative_alike MAX E env r hrel fuel
            ⟨1, app_flash_init_param env.stored, 0, 0⟩
          simp only [after_ret, after_trace, hideLogs_append]
          exact ⟨h1, by rw [h2]⟩
  · simp [app_lorawan_init, hd]

/-- A start-up step whose result is negative once stored in the `int8_t ret`
ends the run: the value 0 is returned, no join request and no nonce write is
issued, and no start-up step is called twice. -/
theorem stored_negative_startup_terminal (MAX E : Int) (env : Env) (fuel : Nat)
    (h : env.deviceReady = false ∨ toInt8 env.startResult < 0 ∨
      toInt8 env.regionResult < 0) :
    (app_lorawan_init MAX E env fuel).ret = some 0 ∧
    joinNonces (app_lorawan_init MAX E env fuel).trace = [] ∧
    nvsWrites (app_lorawan_init MAX E env fuel).trace = [] ∧
    (app_lorawan_init MAX E env fuel).trace.count Event.device_is_ready ≤ 1 ∧
    (app_lorawan_init MAX E env fuel).trace.count Event.lorawan_start ≤ 1 ∧
    (app_lorawan_init MAX E env fuel).trace.count Event.lorawan_set_region ≤ 1 := by
  by_cases hd : env.deviceReady = true
  · by_cases hs : toInt8 env.startResult < 0
    · simp [app_lorawan_init, hd, hs, joinNonces, nvsWrites]
    · by_cases hr : toInt8 env.regionResult < 0
      · simp [app_lorawan_init, hd, hs, hr, joinNonces, nvsWrites]
      · exfalso
        rcases h with h | h | h
        · simp [hd] at h
        · exact hs h
        · exact hr h
  · simp [app_lorawan_init, hd, joinNonces, nvsWrites]

@[simp] theorem sendCount_append (a b : List Event) :
    sendCount (a ++ b) = sendCount a + sendCount b := by
  simp [sendCount, List.filter_append]

/-- One unfolding of the transmit loop. -/
theorem sendLoop_succ (E : Int) (res : Nat → Int) (fuel : Nat) (i : Int) (k : Nat) :
    sendLoop E res (fuel + 1) i k =
      if i < 5 then
        if res k = -E then
          (sendLoop E res fuel (toInt8 (i + 1)) (k + 1)).after
            ([Event.printk Msg.sending, Event.gpio_pin_set Led.led_tx 1, Event.lorawan_send]
              ++ [Event.printk (Msg.send_retry (res k)), Event.gpio_pin_set Led.led_tx 0,
                Event.k_sleep 10000])
        else if res k < 0 then
          ⟨some 0,
            [Event.printk Msg.sending, Event.gpio_pin_set Led.led_tx 1, Event.lorawan_send]
              ++ [Event.printk (Msg.send_failed (res k)), Event.gpio_pin_set Led.led_tx 0]⟩
        else
          (sendLoop E res fuel (toInt8 (i + 1)) (k + 1)).after
            ([Event.printk Msg.sending, Event.gpio_pin_set Led.led_tx 1, Event.lorawan_send]
              ++ [Event.printk Msg.sent, Event.gpio_pin_set Led.led_tx 0,
                Event.k_sleep_delay])
      else
        ⟨some 0, []⟩ := rfl

/-- The transmit loop with `n` iterations left: it returns, it issues `n` sends
when no result is fatal and stops at the first fatal result otherwise, and it
waits 10 s after exactly the sends answered with `-EAGAIN`. -/
theorem sendLoop_spec (E : Int) (res : Nat → Int) :
    ∀ (n fuel k : Nat), n ≤ 5 → n < fuel →
      (sendLoop E res fuel (5 - (n : Int)) k).ret = some 0 ∧
      ((∀ j, j < n → ¬ fatalSend E (res (k + j))) →
        sendCount (sendLoop E res fuel (5 - (n : Int)) k).trace = n) ∧
      (∀ j, j < n → fatalSend E (res (k + j)) →
        (∀ j', j' < j → ¬ fatalSend E (res (k + j'))) →
        sendCount (sendLoop E res fuel (5 - (n : Int)) k).trace = j + 1) ∧
      sleeps (sendLoop E res fuel (5 - (n : Int)) k).trace =
        ((List.range' k (sendCount (sendLoop E res fuel (5 - (n : Int)) k).trace)).filter
          (fun j => decide (res j = -E))).map (fun _ => 10000) := by
  intro n
  induction n with
  | zero =>
    intro fuel k _ hf
    obtain ⟨f, rfl⟩ : ∃ f, fuel = f + 1 := ⟨fuel - 1, by omega⟩
    rw [sendLoop_succ]
    simp [sendCount, sleeps]
  | succ n ih =>
    intro fuel k hn hf
    obtain ⟨f, rfl⟩ : ∃ f, fuel = f + 1 := ⟨fuel - 1, by omega⟩
    have hi : (5 : Int) - ((n + 1 : Nat) : Int) < 5 := by push_cast; omega
    have hnext : toInt8 ((5 : Int) - ((n + 1 : Nat) : Int) + 1) = 5 - (n : Int) := by
      rw [toInt8_of_range _ (by push_cast; omega) (by push_cast; omega)]
      push_cast; omega
    obtain ⟨ih1, ih2, ih3, ih4⟩ := ih f (k + 1) (by omega) (by omega)
    have hshift : ∀ j, k + 1 + j = k + (j + 1) := by intro j; omega
    have hhead : sendCount [Event.printk Msg.sending, Event.gpio_pin_set Led.led_tx 1,
        Event.lorawan_send] = 1 := rfl
    rw [sendLoop_succ, if_pos hi]
    by_cases he : res k = -E
    · have hnf : ¬ fatalSend E (res k) := fun h => h.2 he
      rw [if_pos he, hnext]
      simp only [after_ret, after_trace, sendCount_append, sleeps_append, hhead]
      refine ⟨ih1, ?_, ?_, ?_⟩
      · intro hall
        rw [ih2 (fun j hj => by rw [hshift]; exact hall (j + 1) (by omega))]
        simp [sendCount]; omega
      · intro j hj hfat hpre
        cases j with
        | zero => exact absurd hfat hnf
        | succ j =>
          rw [ih3 j (by omega) (by rw [hshift]; exact hfat)
            (fun j' hj' => by rw [hshift]; exact hpre (j' + 1) (by omega))]
          simp [sendCount]; omega
      · rw [ih4]
        have : sendCount [Event.printk (Msg.send_retry (res k)), Event.gpio_pin_set Led.led_tx 0,
            Event.k_sleep 10000] = 0 := rfl
        rw [this, Nat.add_zero, Nat.add_comm 1, List.range'_succ]
        simp [sleeps, he]
    · rw [if_neg he]
      by_cases hneg : res k < 0
      · have hfatal : fatalSend E (res k) := ⟨hneg, he⟩
        rw [if_pos hneg]
        refine ⟨rfl, ?_, ?_, ?_⟩
        · intro hall
          exact absurd hfatal (hall 0 (by omega))
        · intro j hj _ hpre
          cases j with
          | zero => simp [sendCount]
          | succ j => exact absurd hfatal (hpre 0 (by omega))
        · simp [sendCount, sleeps, he]
      · have hnf : ¬ fatalSend E (res k) := fun h => hneg h.1
        rw [if_neg hneg, hnext]
        simp only [after_ret, after_trace, sendCount_append, sleeps_append, hhead]
        refine ⟨ih1, ?_, ?_, ?_⟩
        · intro hall
          rw [ih2 (fun j hj => by rw [hshift]; exact hall (j + 1) (by omega))]
          simp [sendCount]; omega
        · intro j hj hfat hpre
          cases j with
          | zero => exact absurd hfat hnf
          | succ j =>
            rw [ih3 j (by omega) (by rw [hshift]; exact hfat)
              (fun j' hj' => by rw [hshift]; exact hpre (j' + 1) (by omega))]
            simp [sendCount]; omega
        · rw [ih4]
          have : sendCount [Event.printk Msg.sent, Event.gpio_pin_set Led.led_tx 0,
              Event.k_sleep_delay] = 0 := rfl
          rw [this, Nat.add_zero, Nat.add_comm 1, List.range'_succ]
          simp [sleeps, he]

/-! ## C3: bound on the number of join requests -/

set_option maxRecDepth 100000 in
/-- C3, as stated, fails at both ends of the range of `MAX_JOIN_ATTEMPTS`: with
the constant equal to 1 a run whose first join succeeds issues two join requests
(the one before the loop and the one of the first iteration); with the constant
equal to 128 the `int8_t` counter wraps from 127 to -128 and never reaches the
bound, so a run whose retries all fail has issued 131 join requests after 130
iterations. -/
theorem c3_counterexample :
    joinCount (app_lorawan_init 1 116 (mkEnv none [0, 0] []) 5).trace = 2 ∧
    (app_lorawan_init 1 116 (mkEnv none [0, 0] []) 5).ret = some 1 ∧
    joinCount (app_lorawan_init 128 116 envRetriesTimeOut 130).trace = 131 := by
  refine ⟨by decide, by decide, ?_⟩
  decide

/-- C3 (amended): for every value of `MAX_JOIN_ATTEMPTS` from 2 to 127, every
environment and every number of loop iterations executed, `app_lorawan_init` has
issued at most `MAX_JOIN_ATTEMPTS` calls of `lorawan_join` (the call before the
loop included), and the run returns within `MAX_JOIN_ATTEMPTS` iterations. -/
theorem c3_join_requests_bounded (MAX E : Int) (env : Env) (fuel : Nat)
    (h2 : 2 ≤ MAX) (h127 : MAX ≤ 127) :
    (joinCount (app_lorawan_init MAX E env fuel).trace : Int) ≤ MAX ∧
    (MAX ≤ fuel → (app_lorawan_init MAX E env fuel).ret ≠ none) := by
  rcases app_lorawan_init_cases MAX E env fuel with ⟨hr, hc, _⟩ | hl
  · constructor
    · have : (joinCount (app_lorawan_init MAX E env fuel).trace : Int) ≤ 1 := by exact_mod_cast hc
      omega
    · intro _; simp [hr]
  · rw [hl]
    constructor
    · have := joinLoop_joinCount_le MAX E env h127 fuel
        ⟨1, app_flash_init_param env.stored, 0, 0⟩ (by simp) (by simp; omega)
      simp only [joinCount, after_trace, joinNonces_append, joinNonces_prologue,
        List.length_append, List.length_singleton] at this ⊢
      push_cast
      omega
    · intro hf
      have := joinLoop_returns MAX E env h127 fuel
        ⟨1, app_flash_init_param env.stored, 0, 0⟩ (by simp) (by simp) (by simp; omega) (by omega)
      simp [this]

/-- Witness of C3 (amended): the budget 5 with every retry timing out. -/
theorem c3_join_requests_bounded_witness :
    (2 : Int) ≤ 5 ∧ (5 : Int) ≤ 127 ∧
    (joinCount (app_lorawan_init 5 116
        (mkEnv none [0, -116, -116, -116, -116, -116] []) 9).trace : Int) ≤ 5 ∧
    ((5 : Int) ≤ (9 : Nat) → (app_lorawan_init 5 116
        (mkEnv none [0, -116, -116, -116, -116, -116] []) 9).ret ≠ none) :=
  ⟨by decide, by decide,
    c3_join_requests_bounded 5 116 (mkEnv none [0, -116, -116, -116, -116, -116] []) 9
      (by decide) (by decide)⟩

/-! ## C1, C2, C4, C5: the join made before the loop and the value returned -/

/-- C1, the code at the failing inputs: with 42 in the store and two successful
joins, two join requests are issued but only one increment is written (43, not
44); with a first join that times out, one join request is issued, nothing is
written and the function returns 0. -/
theorem c1_first_join_not_followed_by_write :
    joinCount (app_lorawan_init 5 116 (mkEnv (some 42) [0, 0] []) 9).trace = 2 ∧
    nvsWrites (app_lorawan_init 5 116 (mkEnv (some 42) [0, 0] []) 9).trace = [43] ∧
    (app_lorawan_init 5 116 (mkEnv (some 42) [0, 0] []) 9).ret = some 1 ∧
    joinCount (app_lorawan_init 5 116 (mkEnv (some 42) [-116] []) 9).trace = 1 ∧
    nvsWrites (app_lorawan_init 5 116 (mkEnv (some 42) [-116] []) 9).trace = [] ∧
    (app_lorawan_init 5 116 (mkEnv (some 42) [-116] []) 9).ret = some 0 := by
  decide

/-- C2, the code at the failing input: with 42 in the store, the first two join
requests carry the nonce 0 and the third carries 43, where the claim asks for
42, 43 and 44. -/
theorem c2_first_joins_carry_zero :
    app_flash_init_param (mkEnv (some 42) [0, -116, 0] []).stored = 42 ∧
    joinNonces (app_lorawan_init 5 116 (mkEnv (some 42) [0, -116, 0] []) 9).trace
      = [0, 0, 43] := by
  decide

/-- C4, the code at the failing input: with a budget of 5, when every retry of
the loop times out the loop ends on the budget, the last join result is
negative, and the function still returns 1. -/
theorem c4_exhausted_returns_success :
    (app_lorawan_init 5 116
      (mkEnv none [0, -116, -116, -116, -116, -116, -116] []) 9).ret = some 1 ∧
    joinCount (app_lorawan_init 5 116
      (mkEnv none [0, -116, -116, -116, -116, -116, -116] []) 9).trace = 5 ∧
    nvsWrites (app_lorawan_init 5 116
      (mkEnv none [0, -116, -116, -116, -116, -116, -116] []) 9).trace = [1, 2, 3, 4] ∧
    (mkEnv none [0, -116, -116, -116, -116, -116, -116] []).joinResults 4 < 0 := by
  decide

/-- C5, the code at the failing input: empty store, three time-outs then a
success; the first time-out ends the run, with one join request, no write and
the value 0 returned. -/
theorem c5_first_failure_is_terminal :
    (app_lorawan_init 5 116 (mkEnv none [-116, -116, -116, 0] []) 9).ret = some 0 ∧
    joinCount (app_lorawan_init 5 116 (mkEnv none [-116, -116, -116, 0] []) 9).trace = 1 ∧
    nvsWrites (app_lorawan_init 5 116 (mkEnv none [-116, -116, -116, 0] []) 9).trace = [] := by
  decide

/-! ## C8: the written values and the 16-bit wrap -/

/-- C8, as stated, fails when the counter wraps: from the stored value 65535 the
only value written is 0, and from 65534 the values written are 65535 then 0. -/
theorem c8_counterexample :
    app_flash_init_param (mkEnv (some 65535) [0, 0] []).stored = 65535 ∧
    nvsWrites (app_lorawan_init 5 116 (mkEnv (some 65535) [0, 0] []) 9).trace = [0] ∧
    nvsWrites (app_lorawan_init 5 116 (mkEnv (some 65534) [0, -116, 0] []) 9).trace
      = [65535, 0] := by
  decide

/-- C8 (amended): in every run in which the starting value plus the number of
values written does not exceed 65535, each value written with `nvs_write` is
strictly greater than the starting value and than every value written earlier
in the run. -/
theorem c8_writes_strictly_increasing (MAX E : Int) (env : Env) (fuel : Nat)
    (h : app_flash_init_param env.stored
        + (nvsWrites (app_lorawan_init MAX E env fuel).trace).length ≤ 65535) :
    (∀ w ∈ nvsWrites (app_lorawan_init MAX E env fuel).trace,
        app_flash_init_param env.stored < w) ∧
    (nvsWrites (app_lorawan_init MAX E env fuel).trace).Pairwise (fun a b => a < b) := by
  rcases app_lorawan_init_cases MAX E env fuel with ⟨_, _, hw⟩ | hl
  · simp [hw]
  · rw [hl] at h ⊢
    simp only [after_trace, nvsWrites_append, nvsWrites_prologue, List.nil_append] at h ⊢
    have hs := joinLoop_nvsWrites MAX E env fuel ⟨1, app_flash_init_param env.stored, 0, 0⟩
    generalize nvsWrites (joinLoop MAX E env fuel
      ⟨1, app_flash_init_param env.stored, 0, 0⟩).trace = ws at h hs
    simp only at hs
    rw [hs]
    constructor
    · intro w hw
      simp only [List.mem_map, List.mem_range] at hw
      obtain ⟨i, hi, rfl⟩ := hw
      unfold toUInt16
      omega
    · rw [List.pairwise_map]
      refine List.Pairwise.imp_of_mem ?_ (List.pairwise_lt_range _)
      intro a b ha hb hab
      simp only [List.mem_range] at ha hb
      unfold toUInt16
      omega

/-- Witness of C8 (amended): from the stored value 42, three retries. -/
theorem c8_writes_strictly_increasing_witness :
    app_flash_init_param (mkEnv (some 42) [0, -116, -116, 0] []).stored
      + (nvsWrites (app_lorawan_init 5 116
          (mkEnv (some 42) [0, -116, -116, 0] []) 9).trace).length ≤ 65535 ∧
    (∀ w ∈ nvsWrites (app_lorawan_init 5 116 (mkEnv (some 42) [0, -116, -116, 0] []) 9).trace,
        app_flash_init_param (mkEnv (some 42) [0, -116, -116, 0] []).stored < w) ∧
    (nvsWrites (app_lorawan_init 5 116
      (mkEnv (some 42) [0, -116, -116, 0] []) 9).trace).Pairwise (fun a b => a < b) :=
  ⟨by decide,
    c8_writes_strictly_increasing 5 116 (mkEnv (some 42) [0, -116, -116, 0] []) 9 (by decide)⟩

/-! ## C9: a failed nonce write does not alter the join procedure -/

/-- C9: two runs of `app_lorawan_init` that differ only in the results of
`nvs_write` return the same value and make the same calls apart from the
diagnostics: the same join requests with the same nonces, the same waits, the
same values written.  Whatever the writes return, the value passed to the i-th
`nvs_write` (from 0) is the stored nonce incremented `i + 1` times in memory
(modulo 2^16), and the join request issued after that write carries this
incremented value. -/
theorem c9_nvs_write_failure_not_fatal (MAX E : Int) (env : Env) (w : Nat → Int)
    (fuel : Nat) :
    (app_lorawan_init MAX E env fuel).ret
      = (app_lorawan_init MAX E { env with nvsResults := w } fuel).ret ∧
    joinNonces (app_lorawan_init MAX E env fuel).trace
      = joinNonces (app_lorawan_init MAX E { env with nvsResults := w } fuel).trace ∧
    sleeps (app_lorawan_init MAX E env fuel).trace
      = sleeps (app_lorawan_init MAX E { env with nvsResults := w } fuel).trace ∧
    nvsWrites (app_lorawan_init MAX E env fuel).trace
      = nvsWrites (app_lorawan_init MAX E { env with nvsResults := w } fuel).trace ∧
    hideLogs (app_lorawan_init MAX E env fuel).trace
      = hideLogs (app_lorawan_init MAX E { env with nvsResults := w } fuel).trace ∧
    (joinNonces (app_lorawan_init MAX E { env with nvsResults := w } fuel).trace).drop 2
      = (nvsWrites (app_lorawan_init MAX E { env with nvsResults := w } fuel).trace).dropLast ∧
    nvsWrites (app_lorawan_init MAX E { env with nvsResults := w } fuel).trace
      = (List.range
          (nvsWrites (app_lorawan_init MAX E { env with nvsResults := w } fuel).trace).length).map
          (fun i => toUInt16 (app_flash_init_param env.stored + 1 + i)) ∧
    (∀ j, j + 2 < (joinNonces
          (app_lorawan_init MAX E { env with nvsResults := w } fuel).trace).length →
      (joinNonces (app_lorawan_init MAX E { env with nvsResults := w } fuel).trace)[j + 2]?
        = some (toUInt16 (app_flash_init_param env.stored + 1 + j))) := by
  have key : (app_lorawan_init MAX E env fuel).ret
      = (app_lorawan_init MAX E { env with nvsResults := w } fuel).ret ∧
    hideLogs (app_lorawan_init MAX E env fuel).trace
      = hideLogs (app_lorawan_init MAX E { env with nvsResults := w } fuel).trace := by
    by_cases hd : env.deviceReady = true
    · by_cases hs : toInt8 env.startResult < 0
      · simp [app_lorawan_init, hd, hs]
      · by_cases hr : toInt8 env.regionResult < 0
        · simp [app_lorawan_init, hd, hs, hr]
        · by_cases hj : toInt8 (env.joinResults 0) < 0
          · simp [app_lorawan_init, hd, hs, hr, hj, hideLogs]
          · rw [app_lorawan_init_loop MAX E env fuel hd hs hr hj,
              app_lorawan_init_loop MAX E { env with nvsResults := w } fuel hd hs hr hj]
            obtain ⟨h1, h2⟩ := joinLoop_nvs_irrelevant MAX E env w fuel
              ⟨1, app_flash_init_param env.stored, 0, 0⟩
            simp only [after_ret, after_trace, hideLogs_append]
            exact ⟨h1, by rw [h2]⟩
    · simp [app_lorawan_init, hd]
  obtain ⟨kr, kt⟩ := key
  have hdrop : (joinNonces
        (app_lorawan_init MAX E { env with nvsResults := w } fuel).trace).drop 2
      = (nvsWrites
        (app_lorawan_init MAX E { env with nvsResults := w } fuel).trace).dropLast := by
    rcases app_lorawan_init_cases MAX E { env with nvsResults := w } fuel with ⟨_, hc, hw⟩ | hl
    · rw [hw]
      have : (joinNonces (app_lorawan_init MAX E { env with nvsResults := w } fuel).trace).length
          ≤ 1 := hc
      simp only [List.dropLast_nil, List.drop_eq_nil_iff]
      omega
    · rw [hl]
      simp only [after_trace, joinNonces_append, nvsWrites_append, joinNonces_prologue,
        nvsWrites_prologue, List.nil_append, List.singleton_append]
      rcases Nat.eq_zero_or_pos fuel with h0 | hpos
      · subst h0; simp [joinNonces, nvsWrites]
      · obtain ⟨h1, _⟩ := joinLoop_joinNonces MAX E { env with nvsResults := w } fuel
          ⟨1, app_flash_init_param env.stored, 0, 0⟩ hpos
        rw [h1]
        rfl
  have hwr : nvsWrites (app_lorawan_init MAX E { env with nvsResults := w } fuel).trace
      = (List.range
          (nvsWrites (app_lorawan_init MAX E { env with nvsResults := w } fuel).trace).length).map
          (fun i => toUInt16 (app_flash_init_param env.stored + 1 + i)) := by
    rcases app_lorawan_init_cases MAX E { env with nvsResults := w } fuel with ⟨_, _, hw⟩ | hl
    · rw [hw]; rfl
    · rw [hl]
      simp only [after_trace, nvsWrites_append, nvsWrites_prologue, List.nil_append]
      exact joinLoop_nvsWrites MAX E { env with nvsResults := w } fuel
        ⟨1, app_flash_init_param env.stored, 0, 0⟩
  refine ⟨kr, ?_, ?_, ?_, kt, hdrop, hwr, ?_⟩
  · rw [← joinNonces_hideLogs, kt, joinNonces_hideLogs]
  · rw [← sleeps_hideLogs, kt, sleeps_hideLogs]
  · rw [← nvsWrites_hideLogs, kt, nvsWrites_hideLogs]
  · intro j hj
    have hlen : ((joinNonces
        (app_lorawan_init MAX E { env with nvsResults := w } fuel).trace).drop 2).length
        = (nvsWrites
          (app_lorawan_init MAX E { env with nvsResults := w } fuel).trace).length - 1 := by
      rw [hdrop, List.length_dropLast]
    rw [List.length_drop] at hlen
    have hget := List.getElem?_drop (joinNonces
        (app_lorawan_init MAX E { env with nvsResults := w } fuel).trace) 2 j
    rw [Nat.add_comm 2 j] at hget
    rw [← hget, hdrop]
    generalize nvsWrites
      (app_lorawan_init MAX E { env with nvsResults := w } fuel).trace = ws at hwr hlen
    have hjw : j < ws.length - 1 := by omega
    rw [List.getElem?_dropLast, if_pos hjw, hwr, List.getElem?_map,
      List.getElem?_range (by omega)]
    rfl

/-! ## C10: time-out and other negative join results -/

/-- C10, the code at the failing input: the result of `lorawan_join` is an `int`
stored in the `int8_t ret`.  With the time-out -116 as second result the run
issues three join requests and waits 10 s after the second.  With -134 at the
same position `ret` is 122: the loop retries but skips the 10 s wait.  With -256
at the same position `ret` is 0: the loop ends as on a success after two join
requests.  Both are negative results, which the tests `ret < 0` of the loop are
written to handle like the time-out. -/
theorem c10_narrowed_join_result_breaks_symmetry :
    joinNonces (app_lorawan_init 5 116 (mkEnv none [0, -116, 0] []) 9).trace = [0, 0, 1] ∧
    nvsWrites (app_lorawan_init 5 116 (mkEnv none [0, -116, 0] []) 9).trace = [1, 2] ∧
    sleeps (app_lorawan_init 5 116 (mkEnv none [0, -116, 0] []) 9).trace = [500, 10000] ∧
    joinNonces (app_lorawan_init 5 116 (mkEnv none [0, -134, 0] []) 9).trace = [0, 0, 1] ∧
    sleeps (app_lorawan_init 5 116 (mkEnv none [0, -134, 0] []) 9).trace = [500] ∧
    joinNonces (app_lorawan_init 5 116 (mkEnv none [0, -256, 0] []) 9).trace = [0, 0] ∧
    nvsWrites (app_lorawan_init 5 116 (mkEnv none [0, -256, 0] []) 9).trace = [1] ∧
    sleeps (app_lorawan_init 5 116 (mkEnv none [0, -256, 0] []) 9).trace = [500] := by
  decide

/-! ## C7: terminal start-up errors -/

/-- C7, the code at the failing input: `lorawan_start` returns -134, an `int`
stored in the `int8_t ret` as 122, so the test `ret < 0` does not see the
failure: the run goes on, issues two join requests, writes the nonce and
returns 1.  The same happens when `lorawan_set_region` returns -256, stored as
0.  In `main`, where `ret` is an `int`, the result -134 of `lorawan_start` ends
the run before any join request. -/
theorem c7_narrowed_start_result_not_detected :
    (app_lorawan_init 5 116 (envWith none (-134) 0) 9).ret = some 1 ∧
    joinNonces (app_lorawan_init 5 116 (envWith none (-134) 0) 9).trace = [0, 0] ∧
    nvsWrites (app_lorawan_init 5 116 (envWith none (-134) 0) 9).trace = [1] ∧
    (app_lorawan_init 5 116 (envWith none 0 (-256)) 9).ret = some 1 ∧
    joinNonces (app_lorawan_init 5 116 (envWith none 0 (-256)) 9).trace = [0, 0] ∧
    (main 11 { deviceReady := true, startResult := -134, joinResult := 0,
               sendResults := fun _ => 0 }).ret = some 0 ∧
    joinNonces (main 11 { deviceReady := true, startResult := -134, joinResult := 0,
                          sendResults := fun _ => 0 }).trace = [] := by
  decide

/-! ## C6: number of sends of the transmit loop -/

/-- C6: in `main`, once the device is ready, the stack started and the join
accepted, the run returns and, for every sequence of send results: if none of
the five results is negative and different from `-EAGAIN`, exactly 5 sends are
issued; otherwise the number of sends is the 1-based index of the first such
fatal result, so no send follows it.  The 10 s waits are those that follow the
sends answered with `-EAGAIN`, which never stop the loop. -/
theorem c6_transmit_loop_send_count (E : Int) (env : MainEnv)
    (hd : env.deviceReady = true) (hs : 0 ≤ env.startResult) (hj : 0 ≤ env.joinResult) :
    (main E env).ret = some 0 ∧
    ((∀ j, j < 5 → ¬ fatalSend E (env.sendResults j)) →
      sendCount (main E env).trace = 5) ∧
    (∀ j, j < 5 → fatalSend E (env.sendResults j) →
      (∀ i, i < j → ¬ fatalSend E (env.sendResults i)) →
      sendCount (main E env).trace = j + 1) ∧
    sleeps (main E env).trace =
      ((List.range (sendCount (main E env).trace)).filter
        (fun j => decide (env.sendResults j = -E))).map (fun _ => 10000) := by
  have hmain : main E env = (sendLoop E env.sendResults 6 0 0).after
      ([Event.gpio_pin_configure Led.led_tx, Event.gpio_pin_configure Led.led_rx,
        Event.gpio_pin_set Led.led_tx 0, Event.gpio_pin_set Led.led_rx 0,
        Event.device_is_ready, Event.lorawan_start, Event.register_callbacks,
        Event.printk Msg.joining_otaa, Event.lorawan_join 0, Event.printk Msg.test_ttn]) := by
    simp [main, hd, not_lt.mpr hs, not_lt.mpr hj]
  obtain ⟨h1, h2, h3, h4⟩ := sendLoop_spec E env.sendResults 5 6 0 (by omega) (by omega)
  simp only [Nat.cast_ofNat, sub_self, Nat.zero_add] at h1 h2 h3 h4
  have hpre : sendCount [Event.gpio_pin_configure Led.led_tx,
      Event.gpio_pin_configure Led.led_rx,
      Event.gpio_pin_set Led.led_tx 0, Event.gpio_pin_set Led.led_rx 0,
      Event.device_is_ready, Event.lorawan_start, Event.register_callbacks,
      Event.printk Msg.joining_otaa, Event.lorawan_join 0, Event.printk Msg.test_ttn] = 0 := rfl
  have hsl : sleeps [Event.gpio_pin_configure Led.led_tx,
      Event.gpio_pin_configure Led.led_rx,
      Event.gpio_pin_set Led.led_tx 0, Event.gpio_pin_set Led.led_rx 0,
      Event.device_is_ready, Event.lorawan_start, Event.register_callbacks,
      Event.printk Msg.joining_otaa, Event.lorawan_join 0, Event.printk Msg.test_ttn] = [] := rfl
  rw [hmain]
  simp only [after_ret, after_trace, sendCount_append, sleeps_append, hpre, hsl, Nat.zero_add,
    List.nil_append]
  refine ⟨h1, h2, h3, ?_⟩
  rw [h4, List.range_eq_range']

/-- Witness of C6: a busy result, a success, then a fatal result: three sends
and one 10 s wait. -/
theorem c6_transmit_loop_send_count_witness :
    (mkMainEnv [-11, 0, -5, 0, 0]).deviceReady = true ∧
    0 ≤ (mkMainEnv [-11, 0, -5, 0, 0]).startResult ∧
    0 ≤ (mkMainEnv [-11, 0, -5, 0, 0]).joinResult ∧
    (main 11 (mkMainEnv [-11, 0, -5, 0, 0])).ret = some 0 ∧
    sendCount (main 11 (mkMainEnv [-11, 0, -5, 0, 0])).trace = 2 + 1 ∧
    sleeps (main 11 (mkMainEnv [-11, 0, -5, 0, 0])).trace = [10000] :=
  ⟨by decide, by decide, by decide,
    (c6_transmit_loop_send_count 11 (mkMainEnv [-11, 0, -5, 0, 0])
      (by decide) (by decide) (by decide)).1,
    (c6_transmit_loop_send_count 11 (mkMainEnv [-11, 0, -5, 0, 0])
      (by decide) (by decide) (by decide)).2.2.1 2 (by decide) (by decide) (by decide),
    by decide⟩

end LorawanNode
